import Mathlib

/-!
Shallow embedding of the AI mock-interview repository
(src/ai-mock-interview.py and src/ai-per.py) and proofs of the
specification claims about it.

The embedding models machine-level Python behaviour explicitly:
strings are Lean `String` (lists of code points, matching Python `str`
indexing/slicing semantics), Python `None` is `Option.none`, the HTTP
round-trip to the Ollama server is a function `Gateway` from the wire
prompt to one of the outcomes the code distinguishes (a status/body
response, a timeout exception, any other exception), and a dictionary
lookup that can raise `KeyError` is an `Except Unit` result.
-/

namespace MockInterview

/-- Outcome of one HTTP round-trip to the model server, as distinguished
by the `try/except` structure of `call_ollama`: a response with an HTTP
status code and body text, a `requests.exceptions.Timeout`, or any other
exception carrying a message. -/
inductive GatewayResult where
  | ok (status : Nat) (text : String)
  | timeout
  | exc (msg : String)

/-- The external model gateway: maps the wire prompt to an outcome. -/
def Gateway : Type := String → GatewayResult

/-- Model of Python's whitespace class (`\s` for `str` patterns and
`str.strip()`/`str.isspace()`): ASCII whitespace, the C1 separators,
NEL, NBSP, and the Unicode space separators. -/
def pyIsSpace (c : Char) : Bool :=
  let n := c.toNat
  n == 0x20 || n == 0x09 || n == 0x0a || n == 0x0d || n == 0x0b || n == 0x0c ||
  (decide (0x1c ≤ n) && decide (n ≤ 0x1f)) ||
  n == 0x85 || n == 0xa0 || n == 0x1680 ||
  (decide (0x2000 ≤ n) && decide (n ≤ 0x200a)) ||
  n == 0x2028 || n == 0x2029 || n == 0x202f || n == 0x205f || n == 0x3000

/-- Hangul syllable block (U+AC00 to U+D7A3), the range the code writes
as 가-힣 in its character whitelist. -/
def isHangul (c : Char) : Bool :=
  decide (0xac00 ≤ c.toNat) && decide (c.toNat ≤ 0xd7a3)

/-- Model of Python's word class `\w`, restricted to the scripts the
repository actually processes: ASCII letters and digits, underscore,
and Hangul syllables. -/
def pyIsWordChar (c : Char) : Bool :=
  c.isAlpha || c.isDigit || c == '_' || isHangul c

/-- Drop the trailing run of characters satisfying `p`. -/
def stripRight (p : Char → Bool) : List Char → List Char
  | [] => []
  | c :: cs =>
      let r := stripRight p cs
      if r.isEmpty && p c then [] else c :: r

/-- Model of Python `str.strip()` on the character list: drop the
leading and trailing whitespace runs. -/
def pyStrip (l : List Char) : List Char :=
  stripRight pyIsSpace (l.dropWhile pyIsSpace)

/-- Model of Python `str.strip()` on strings. -/
def pyStripS (s : String) : String := ⟨pyStrip s.data⟩

/-- Model of Python slicing `s[:n]`: the first `n` code points. -/
def pySlice (s : String) (n : Nat) : String := ⟨s.data.take n⟩

/-- Model of `re.sub(p+, r, _)` for a single-character class `p`: every
maximal run of characters satisfying `p` is replaced by the single
character `r`. The flag records whether we are inside a run. -/
def collapseAux (p : Char → Bool) (r : Char) (inRun : Bool) : List Char → List Char
  | [] => []
  | c :: cs =>
      if p c then
        if inRun then collapseAux p r true cs
        else r :: collapseAux p r true cs
      else c :: collapseAux p r false cs

/-- Does `hay` start with `needle`? -/
def leadsWith : List Char → List Char → Bool
  | [], _ => true
  | _ :: _, [] => false
  | a :: as, b :: bs => (a == b) && leadsWith as bs

/-- Does `hay` contain `needle` as a contiguous run (Python's
`needle in hay`)? -/
def containsSub (needle : List Char) : List Char → Bool
  | [] => needle.isEmpty
  | c :: t => leadsWith needle (c :: t) || containsSub needle t

/-- Python's `needle in hay` on strings. -/
def strContains (hay needle : String) : Bool :=
  containsSub needle.data hay.data

/-- Model of Python `text.split(sep)` for a one-character separator:
no run collapsing, empty pieces kept, `[""]` on empty input. -/
def splitOnChar (sep : Char) : List Char → List (List Char)
  | [] => [[]]
  | c :: cs =>
      let r := splitOnChar sep cs
      if c == sep then [] :: r
      else
        match r with
        | [] => [[c]]
        | h :: t => (c :: h) :: t

/-- Whitelist of PDFProcessor.clean_and_process_text's third regex:
word characters, whitespace, Hangul syllables, and the punctuation
set listed in the character class. -/
def keepChar (c : Char) : Bool :=
  pyIsWordChar c || pyIsSpace c || isHangul c ||
  c == '.' || c == ',' || c == '!' || c == '?' ||
  c == '(' || c == ')' || c == ':' || c == '-'

/-- Embedding of PDFProcessor.clean_and_process_text: collapse newline
runs to one newline, collapse whitespace runs to one space, drop
characters outside the whitelist, strip. -/
def clean_and_process_text (text : String) : String :=
  let step1 := collapseAux (fun c => c == '\n') '\n' false text.data
  let step2 := collapseAux pyIsSpace ' ' false step1
  let step3 := step2.filter keepChar
  ⟨pyStrip step3⟩

/-- The six section keys of PDFProcessor.extract_key_sections. -/
inductive Category where
  | education | experience | skills | projects | certifications | others
deriving DecidableEq, Repr

/-- The sections dictionary built by PDFProcessor.extract_key_sections:
one accumulated text fragment per category. -/
structure Sections where
  education : String := ""
  experience : String := ""
  skills : String := ""
  projects : String := ""
  certifications : String := ""
  others : String := ""
deriving DecidableEq, Repr

/-- Dictionary read `sections[c]`. -/
def Sections.get (s : Sections) : Category → String
  | .education => s.education
  | .experience => s.experience
  | .skills => s.skills
  | .projects => s.projects
  | .certifications => s.certifications
  | .others => s.others

/-- Dictionary update `sections[c] += t`. -/
def Sections.addTo (s : Sections) (c : Category) (t : String) : Sections :=
  match c with
  | .education => { s with education := s.education ++ t }
  | .experience => { s with experience := s.experience ++ t }
  | .skills => { s with skills := s.skills ++ t }
  | .projects => { s with projects := s.projects ++ t }
  | .certifications => { s with certifications := s.certifications ++ t }
  | .others => { s with others := s.others ++ t }

def education_keywords : List String := ["학력", "교육", "대학", "학과", "전공", "졸업"]

def experience_keywords : List String := ["경력", "경험", "근무", "회사", "업무", "담당"]

def skills_keywords : List String := ["기술", "스킬", "언어", "도구", "프로그래밍"]

def project_keywords : List String := ["프로젝트", "개발", "제작", "구현", "설계"]

def cert_keywords : List String := ["자격증", "인증", "수료", "취득"]

/-- The section-classification cascade of extract_key_sections: first category in
priority order whose keyword set matches the line; otherwise the
current cursor is kept. -/
def classifyLine (line : String) (current : Category) : Category :=
  if education_keywords.any (fun k => strContains line k) then .education
  else if experience_keywords.any (fun k => strContains line k) then .experience
  else if skills_keywords.any (fun k => strContains line k) then .skills
  else if project_keywords.any (fun k => strContains line k) then .projects
  else if cert_keywords.any (fun k => strContains line k) then .certifications
  else current

/-- The line loop of extract_key_sections: strip each line, skip empty
lines, classify, and append `line + " "` to the cursor's category. -/
def extractGo : List String → Category → Sections → Sections
  | [], _, secs => secs
  | l :: ls, cur, secs =>
      let line := pyStripS l
      if line == "" then extractGo ls cur secs
      else
        let cur' := classifyLine line cur
        extractGo ls cur' (secs.addTo cur' (line ++ " "))

/-- Embedding of PDFProcessor.extract_key_sections. -/
def extract_key_sections (text : String) : Sections :=
  extractGo ((splitOnChar '\n' text.data).map (fun l => (⟨l⟩ : String))) .others {}

/-- The text pipeline of PortfolioInterviewSystem.load_portfolio after
PDF extraction: clean the raw text, then build the section profile. -/
def load_portfolio_sections (raw : String) : Sections :=
  extract_key_sections (clean_and_process_text raw)

/-- One entry of `conversation_history`: the interviewer question plus
the applicant answer, which starts out as Python `None`. -/
structure Conv where
  interviewer : String
  user : Option String
deriving DecidableEq, Repr

/-- State of OllamaInterviewSystem (the fields mutated by the methods). -/
structure OllamaInterviewSystem where
  conversation_history : List Conv
  interview_type : Option String
  question_count : Nat
  max_questions : Nat
deriving DecidableEq, Repr

/-- The state OllamaInterviewSystem.__init__ builds. -/
def OllamaInterviewSystem.init : OllamaInterviewSystem :=
  { conversation_history := []
    interview_type := none
    question_count := 0
    max_questions := 8 }

def timeout_message : String := "응답 시간이 초과되었습니다. 다시 시도해주세요."

def http_error_message : String := "죄송합니다. 일시적인 오류가 발생했습니다."

/-- The Korean-instruction wrapper call_ollama puts around every prompt
before sending it to the server. -/
def korean_wrap (prompt : String) : String :=
  "다음 지시사항을 반드시 따르세요:\n1. 오직 표준 한국어로만 답변하세요\n2. 일본어, 중국어, 영어를 절대 사용하지 마세요\n3. 자연스러운 한국어 존댓말로 대화하세요\n4. 한국의 면접관처럼 정중하고 전문적으로 대화하세요\n\n" ++ prompt ++ "\n\n반드시 완벽한 한국어로만 답변해주세요."

/-- Embedding of call_ollama (shared verbatim by both classes): wrap
the prompt, send it, and translate every outcome into a displayable
string — a 200 response yields the stripped body, any other status the
apology message, a timeout the retry message, any other exception an
error string with the exception text. -/
def call_ollama (gw : Gateway) (prompt : String) : String :=
  match gw (korean_wrap prompt) with
  | .ok status text => if status == 200 then pyStripS text else http_error_message
  | .timeout => timeout_message
  | .exc msg => "오류가 발생했습니다: " ++ msg

/-- The `type_prompts` dictionary of OllamaInterviewSystem
.get_interview_prompt; `none` models a `KeyError` on lookup. -/
def type_prompts (t : String) : Option String :=
  if t == "공무원" then
    some "당신은 한국 정부기관의 경험이 풍부한 공무원 면접관입니다.\n반드시 완벽한 표준 한국어로만 답변하세요. 절대 다른 언어를 사용하지 마세요.\n면접 특징: 공직가치, 봉사정신, 공정성, 청렴성을 중시합니다.\n주요 질문 영역: 지원동기, 공직관, 갈등해결, 시민서비스, 정책이해도, 국민에 대한 봉사정신"
  else if t == "공기업" then
    some "당신은 한국의 대표적인 공기업 인사담당 면접관입니다.\n반드시 완벽한 표준 한국어로만 답변하세요. 절대 다른 언어를 사용하지 마세요.\n면접 특징: 공공성과 효율성, 전문성과 혁신을 균형있게 평가합니다.\n주요 질문 영역: 기업이해도, 전문성, 사회적책임, 혁신아이디어, 조직적합성, 공기업 역할"
  else if t == "IT" then
    some "당신은 한국의 유명한 IT 기업 기술면접관입니다.\n반드시 완벽한 표준 한국어로만 답변하세요. 절대 다른 언어를 사용하지 마세요.\n면접 특징: 기술역량, 문제해결능력, 학습능력, 협업능력을 중시합니다.\n주요 질문 영역: 기술경험, 프로젝트사례, 문제해결, 최신기술동향, 팀워크, 코딩실력"
  else if t == "사기업" then
    some "당신은 한국의 대기업 인사담당 면접관입니다.\n반드시 완벽한 표준 한국어로만 답변하세요. 절대 다른 언어를 사용하지 마세요.\n면접 특징: 성과지향성, 적응력, 리더십, 회사기여도를 중시합니다.\n주요 질문 영역: 지원동기, 성취경험, 목표의식, 스트레스관리, 미래계획, 회사적합성"
  else none

/-- Python f-string rendering of an optional string (`None` prints as
the four letters "None"). -/
def pyOptStr : Option String → String
  | none => "None"
  | some s => s

/-- Python `history[-2:]`: the (at most) two most recent turns. -/
def recentTurns (l : List Conv) : List Conv := l.drop (l.length - 2)

/-- The transcript block built by the recent-history loop: one
interviewer/applicant pair per rendered turn. -/
def renderHistory (l : List Conv) : String :=
  l.foldl (fun acc conv =>
    acc ++ "면접관: " ++ conv.interviewer ++ "\n지원자: " ++ pyOptStr conv.user ++ "\n\n") ""

/-- The shared `base_prompt` of OllamaInterviewSystem
.get_interview_prompt. -/
def interview_base_prompt (tp : String) (question_count max_questions : Nat) : String :=
  tp ++ "\n\n중요한 면접 진행 지침:\n- 반드시 표준 한국어로만 대화하세요 (절대 일본어, 중국어, 영어 금지)\n- 정중하고 전문적인 한국어 존댓말 사용\n- 한 번에 하나의 명확한 질문만 제시\n- 실무 중심의 구체적인 질문 위주\n- 지원자 답변에 대한 간단하고 건설적인 피드백 제공\n- 한국의 면접 문화에 맞는 자연스러운 대화\n\n현재 면접 진행 상황: " ++ toString (question_count + 1) ++ "번째 질문 (총 " ++ toString max_questions ++ "개 예정)"

/-- The first-turn prompt of OllamaInterviewSystem.get_interview_prompt. -/
def first_turn_prompt (tp : String) (interview_type : Option String)
    (question_count max_questions : Nat) : String :=
  interview_base_prompt tp question_count max_questions ++ "\n\n지금 " ++ pyOptStr interview_type ++ " 면접을 시작합니다. \n한국의 면접관답게 정중한 인사말과 함께 첫 번째 질문을 해주세요.\n반드시 완벽한 한국어로만 답변하세요. 절대 외국어를 사용하지 마세요."

/-- The follow-up prompt of OllamaInterviewSystem.get_interview_prompt,
parameterised by the rendered transcript block `recent_history`. -/
def followup_prompt (tp : String) (question_count max_questions : Nat)
    (recent_history : String) : String :=
  interview_base_prompt tp question_count max_questions ++ "\n\n최근 대화 내용:\n" ++ recent_history ++ "\n\n지원자의 답변에 대해 간단한 피드백을 주고, 다음 질문을 해주세요.\n반드시 완벽한 한국어로만 답변하세요. 절대 외국어를 섞지 마세요.\n답변이 구체적이고 좋다면 격려하고, 부족하다면 더 자세한 설명을 정중하게 요청하세요."

/-- Embedding of OllamaInterviewSystem.get_interview_prompt. The
dictionary lookup `type_prompts[interview_type]` raises on an unknown
type, modelled as `.error ()`. -/
def OllamaInterviewSystem.get_interview_prompt (self : OllamaInterviewSystem)
    (interview_type : Option String) (is_first : Bool) : Except Unit String :=
  match interview_type.bind type_prompts with
  | none => .error ()
  | some tp =>
      if is_first then
        .ok (first_turn_prompt tp interview_type self.question_count self.max_questions)
      else
        let recent_history :=
          if self.conversation_history.isEmpty then ""
          else renderHistory (recentTurns self.conversation_history)
        .ok (followup_prompt tp self.question_count self.max_questions recent_history)

/-- Embedding of OllamaInterviewSystem.start_interview: reset the
session fields, build the first-turn prompt, call the gateway, set the
question counter to 1, return the opening response. -/
def OllamaInterviewSystem.start_interview (self : OllamaInterviewSystem)
    (gw : Gateway) (interview_type : String) :
    Except Unit (OllamaInterviewSystem × String) :=
  let s1 : OllamaInterviewSystem :=
    { self with
      interview_type := some interview_type
      conversation_history := []
      question_count := 0 }
  match s1.get_interview_prompt (some interview_type) true with
  | .error e => .error e
  | .ok prompt =>
      let response := call_ollama gw prompt
      .ok ({ s1 with question_count := 1 }, response)

/-- The closing-evaluation prompt of OllamaInterviewSystem
.process_answer's concluding branch. -/
def concluding_prompt (user_answer : String) : String :=
  "면접이 모두 완료되었습니다. \n지원자의 마지막 답변: " ++ user_answer ++ "\n\n한국의 면접관답게 전체적인 면접에 대한 종합 피드백을 정중하고 따뜻하게 제공해주세요.\n다음 내용을 포함해주세요:\n1. 전반적인 면접 태도와 인상\n2. 주요 강점 2-3가지\n3. 개선이 필요한 부분 1-2가지  \n4. 앞으로의 발전을 위한 조언\n5. 격려와 응원의 마무리 인사\n\n반드시 완벽한 한국어로만 답변하고 격려의 말씀으로 마무리해주세요."

/-- The history mutation `conversation_history[-1]['user'] = answer`
guarded by `if self.conversation_history:` — a no-op on the empty
list, otherwise the last entry's `user` field is set. -/
def updateLast : List Conv → String → List Conv
  | [], _ => []
  | [c], a => [{ c with user := some a }]
  | c :: c' :: cs, a => c :: updateLast (c' :: cs) a

/-- Embedding of OllamaInterviewSystem.process_answer. Concluding
branch (question_count has reached max_questions): call the gateway
with the closing-evaluation prompt and return `(response, true)` with
the state untouched. Otherwise: attach the answer to the most recent
turn, build the follow-up prompt, call the gateway, append a new turn
holding the response with no answer yet, increment the counter, and
return `(response, false)`. -/
def OllamaInterviewSystem.process_answer (self : OllamaInterviewSystem)
    (gw : Gateway) (user_answer : String) :
    Except Unit (OllamaInterviewSystem × String × Bool) :=
  if self.max_questions ≤ self.question_count then
    let prompt := concluding_prompt user_answer
    let response := call_ollama gw prompt
    .ok (self, response, true)
  else
    let s1 : OllamaInterviewSystem :=
      { self with conversation_history := updateLast self.conversation_history user_answer }
    match s1.get_interview_prompt self.interview_type false with
    | .error e => .error e
    | .ok p =>
        let prompt := p ++ "\n\n지원자의 최근 답변: " ++ user_answer ++ "\n\n이 답변에 대한 간단한 피드백과 함께 다음 질문을 해주세요. 반드시 한국어로만 답변하세요."
        let response := call_ollama gw prompt
        .ok
          ({ s1 with
             conversation_history := s1.conversation_history ++ [⟨response, none⟩]
             question_count := s1.question_count + 1 },
           response, false)

/-- State of PortfolioInterviewSystem. The sections dictionary is
`none` while still the empty dict `{}` from `__init__` (so
`dict.get` falls back to its default), `some` once load_portfolio has
stored a full profile. -/
structure PortfolioInterviewSystem where
  conversation_history : List Conv
  interview_type : Option String
  question_count : Nat
  max_questions : Nat
  portfolio_content : String
  portfolio_sections : Option Sections
  has_portfolio : Bool
deriving DecidableEq, Repr

/-- The state PortfolioInterviewSystem.__init__ builds. -/
def PortfolioInterviewSystem.init : PortfolioInterviewSystem :=
  { conversation_history := []
    interview_type := none
    question_count := 0
    max_questions := 8
    portfolio_content := ""
    portfolio_sections := none
    has_portfolio := false }

/-- Embedding of PortfolioInterviewSystem.load_portfolio after text
extraction succeeded with the non-empty raw text `raw`. -/
def PortfolioInterviewSystem.load_portfolio (self : PortfolioInterviewSystem)
    (raw : String) : PortfolioInterviewSystem :=
  let content := clean_and_process_text raw
  { self with
    portfolio_content := content
    portfolio_sections := some (extract_key_sections content)
    has_portfolio := true }

/-- Python `self.portfolio_sections.get(key, '정보 없음')`: the default
when the dict is still empty, the stored fragment otherwise. -/
def sectionsGet (ps : Option Sections) (c : Category) : String :=
  match ps with
  | none => "정보 없음"
  | some s => s.get c

/-- The `type_prompts` dictionary of PortfolioInterviewSystem
.get_portfolio_based_prompt. -/
def pf_type_prompts (t : String) : Option String :=
  if t == "공무원" then
    some "당신은 한국 정부기관의 경험이 풍부한 공무원 면접관입니다.\n지원자의 포트폴리오를 검토한 후 공직가치, 봉사정신, 공정성을 중시하는 질문을 하세요."
  else if t == "공기업" then
    some "당신은 한국의 대표적인 공기업 인사담당 면접관입니다.\n지원자의 포트폴리오를 바탕으로 공공성과 효율성, 전문성을 평가하는 질문을 하세요."
  else if t == "IT" then
    some "당신은 한국의 유명한 IT 기업 기술면접관입니다.\n지원자의 포트폴리오에 나타난 기술경험과 프로젝트를 바탕으로 심화 질문을 하세요."
  else if t == "사기업" then
    some "당신은 한국의 대기업 인사담당 면접관입니다.\n지원자의 포트폴리오를 검토하여 성과지향성과 회사기여도를 평가하는 질문을 하세요."
  else none

/-- The `portfolio_summary` block of get_portfolio_based_prompt when a
portfolio is present: the five named categories, each truncated by
Python slicing to its character budget (200, 200, 200, 200, 100). -/
def portfolio_summary_block (ps : Option Sections) : String :=
  "\n**지원자 포트폴리오 요약:**\n교육배경: " ++ pySlice (sectionsGet ps .education) 200 ++
  "\n경력사항: " ++ pySlice (sectionsGet ps .experience) 200 ++
  "\n기술/스킬: " ++ pySlice (sectionsGet ps .skills) 200 ++
  "\n프로젝트: " ++ pySlice (sectionsGet ps .projects) 200 ++
  "\n자격증: " ++ pySlice (sectionsGet ps .certifications) 100 ++ "\n"

/-- The `base_prompt` of get_portfolio_based_prompt, parameterised by
the role block and the (possibly empty) portfolio summary block. -/
def pf_base_prompt (tp portfolio_summary : String) (question_count max_questions : Nat) : String :=
  tp ++ "\n\n" ++ portfolio_summary ++ "\n\n면접 진행 지침:\n- 반드시 표준 한국어로만 대화하세요\n- 포트폴리오 내용을 바탕으로 구체적이고 개인화된 질문을 하세요\n- 지원자의 경험과 스킬에 대해 심화 질문을 진행하세요\n- 정중하고 전문적인 한국어 존댓말 사용\n- 한 번에 하나의 명확한 질문만 제시\n\n현재 면접 진행 상황: " ++ toString (question_count + 1) ++ "번째 질문 (총 " ++ toString max_questions ++ "개 예정)"

/-- Embedding of PortfolioInterviewSystem.get_portfolio_based_prompt. -/
def PortfolioInterviewSystem.get_portfolio_based_prompt
    (self : PortfolioInterviewSystem) (interview_type : Option String)
    (is_first : Bool) : Except Unit String :=
  match interview_type.bind pf_type_prompts with
  | none => .error ()
  | some tp =>
      let portfolio_summary :=
        if self.has_portfolio then portfolio_summary_block self.portfolio_sections else ""
      let base_prompt := pf_base_prompt tp portfolio_summary self.question_count self.max_questions
      if is_first then
        .ok (base_prompt ++ "\n\n지금 " ++ pyOptStr interview_type ++ " 면접을 시작합니다.\n지원자의 포트폴리오를 검토했다는 인사말과 함께 포트폴리오 내용에 기반한 첫 번째 질문을 해주세요.\n반드시 완벽한 한국어로만 답변하세요.")
      else
        let recent_history :=
          if self.conversation_history.isEmpty then ""
          else renderHistory (recentTurns self.conversation_history)
        .ok (base_prompt ++ "\n\n최근 대화 내용:\n" ++ recent_history ++ "\n\n지원자의 답변을 바탕으로 포트폴리오 내용과 연관된 심화 질문을 해주세요.\n반드시 완벽한 한국어로만 답변하세요.")

/-- The basic `type_prompts` dictionary of PortfolioInterviewSystem
.get_interview_prompt (the no-portfolio fallback). -/
def pf_basic_type_prompts (t : String) : Option String :=
  if t == "공무원" then
    some "당신은 한국 정부기관의 경험이 풍부한 공무원 면접관입니다.\n공직가치, 봉사정신, 공정성을 중시하는 질문을 하세요."
  else if t == "공기업" then
    some "당신은 한국의 대표적인 공기업 인사담당 면접관입니다.\n공공성과 효율성, 전문성을 평가하는 질문을 하세요."
  else if t == "IT" then
    some "당신은 한국의 유명한 IT 기업 기술면접관입니다.\n기술역량과 문제해결능력을 평가하는 질문을 하세요."
  else if t == "사기업" then
    some "당신은 한국의 대기업 인사담당 면접관입니다.\n성과지향성과 회사기여도를 평가하는 질문을 하세요."
  else none

/-- Embedding of PortfolioInterviewSystem.get_interview_prompt (used
when no portfolio was uploaded). -/
def PortfolioInterviewSystem.get_interview_prompt
    (self : PortfolioInterviewSystem) (interview_type : Option String)
    (is_first : Bool) : Except Unit String :=
  match interview_type.bind pf_basic_type_prompts with
  | none => .error ()
  | some tp =>
      let base_prompt := tp ++ "\n\n면접 진행 지침:\n- 반드시 표준 한국어로만 대화하세요\n- 정중하고 전문적인 한국어 존댓말 사용\n- 한 번에 하나의 명확한 질문만 제시\n- 실무 중심의 구체적인 질문 위주\n\n현재 면접 진행 상황: " ++ toString (self.question_count + 1) ++ "번째 질문 (총 " ++ toString self.max_questions ++ "개 예정)"
      if is_first then
        .ok (base_prompt ++ "\n\n지금 " ++ pyOptStr interview_type ++ " 면접을 시작합니다.\n정중한 인사말과 함께 첫 번째 질문을 해주세요.\n반드시 완벽한 한국어로만 답변하세요.")
      else
        let recent_history :=
          if self.conversation_history.isEmpty then ""
          else renderHistory (recentTurns self.conversation_history)
        .ok (base_prompt ++ "\n\n최근 대화 내용:\n" ++ recent_history ++ "\n\n지원자의 답변에 대해 간단한 피드백을 주고, 다음 질문을 해주세요.\n반드시 완벽한 한국어로만 답변하세요.")

/-- Embedding of PortfolioInterviewSystem.start_interview: reset the
session fields, pick the portfolio-based or the basic first prompt,
call the gateway, set the counter to 1. -/
def PortfolioInterviewSystem.start_interview (self : PortfolioInterviewSystem)
    (gw : Gateway) (interview_type : String) :
    Except Unit (PortfolioInterviewSystem × String) :=
  let s1 : PortfolioInterviewSystem :=
    { self with
      interview_type := some interview_type
      conversation_history := []
      question_count := 0 }
  let promptE :=
    if s1.has_portfolio then s1.get_portfolio_based_prompt (some interview_type) true
    else s1.get_interview_prompt (some interview_type) true
  match promptE with
  | .error e => .error e
  | .ok prompt =>
      let response := call_ollama gw prompt
      .ok ({ s1 with question_count := 1 }, response)

/-- The closing-evaluation prompt of PortfolioInterviewSystem
.process_answer, with the extra portfolio line when a portfolio is
present. -/
def pf_concluding_prompt (user_answer : String) (has_portfolio : Bool) : String :=
  let portfolio_context :=
    if has_portfolio then "\n지원자의 포트폴리오 내용도 종합적으로 고려하여 평가해주세요." else ""
  "면접이 모두 완료되었습니다.\n지원자의 마지막 답변: " ++ user_answer ++ "\n" ++ portfolio_context ++ "\n\n한국의 면접관답게 전체적인 면접에 대한 종합 피드백을 제공해주세요.\n다음 내용을 포함해주세요:\n1. 전반적인 면접 태도와 인상\n2. 주요 강점 2-3가지\n3. 개선이 필요한 부분 1-2가지\n4. 앞으로의 발전을 위한 조언\n5. 격려와 응원의 마무리 인사\n\n반드시 완벽한 한국어로만 답변하세요."

/-- Embedding of PortfolioInterviewSystem.process_answer (same control
shape as the Ollama variant, with portfolio-aware prompt choice). -/
def PortfolioInterviewSystem.process_answer (self : PortfolioInterviewSystem)
    (gw : Gateway) (user_answer : String) :
    Except Unit (PortfolioInterviewSystem × String × Bool) :=
  if self.max_questions ≤ self.question_count then
    let prompt := pf_concluding_prompt user_answer self.has_portfolio
    let response := call_ollama gw prompt
    .ok (self, response, true)
  else
    let s1 : PortfolioInterviewSystem :=
      { self with conversation_history := updateLast self.conversation_history user_answer }
    let promptE :=
      if s1.has_portfolio then s1.get_portfolio_based_prompt self.interview_type false
      else s1.get_interview_prompt self.interview_type false
    match promptE with
    | .error e => .error e
    | .ok p =>
        let prompt := p ++ "\n\n지원자의 최근 답변: " ++ user_answer ++ "\n\n이 답변에 대한 간단한 피드백과 함께 다음 질문을 해주세요."
        let response := call_ollama gw prompt
        .ok
          ({ s1 with
             conversation_history := s1.conversation_history ++ [⟨response, none⟩]
             question_count := s1.question_count + 1 },
           response, false)

/-! ### Specification-side definitions used to state the claims -/

/-- The six accumulator values of a sections dictionary, in key order. -/
def Sections.values (s : Sections) : List String :=
  [s.education, s.experience, s.skills, s.projects, s.certifications, s.others]

/-- True iff the line contains no keyword of any of the five
classified categories. -/
def noKeyword (line : String) : Bool :=
  !(education_keywords.any (fun k => strContains line k)) &&
  !(experience_keywords.any (fun k => strContains line k)) &&
  !(skills_keywords.any (fun k => strContains line k)) &&
  !(project_keywords.any (fun k => strContains line k)) &&
  !(cert_keywords.any (fun k => strContains line k))

/-- The response produced by a non-concluding process_answer call:
the gateway's answer to the follow-up prompt composed from the
transcript window of the already-updated history. -/
def next_question_response (gw : Gateway) (tp : String) (qc maxq : Nat)
    (hist : List Conv) (a : String) : String :=
  call_ollama gw
    (followup_prompt tp qc maxq (renderHistory (recentTurns hist)) ++
     "\n\n지원자의 최근 답변: " ++ a ++ "\n\n이 답변에 대한 간단한 피드백과 함께 다음 질문을 해주세요. 반드시 한국어로만 답변하세요.")

/-- Run a sequence of submit calls, keeping the state where a call
fails (used to state turn-counter monotonicity over traces). -/
def runSubmits (st : OllamaInterviewSystem) (gw : Gateway) : List String → OllamaInterviewSystem
  | [] => st
  | a :: as =>
      match st.process_answer gw a with
      | .error _ => st
      | .ok (st', _, _) => runSubmits st' gw as

/-- Run a sequence of submit calls and collect every call's returned
(response, is_final) pair. -/
def submitAll (st : OllamaInterviewSystem) (gw : Gateway) :
    List String → Except Unit (OllamaInterviewSystem × List (String × Bool))
  | [] => .ok (st, [])
  | a :: as =>
      match st.process_answer gw a with
      | .error e => .error e
      | .ok (st', _r, f) =>
          match submitAll st' gw as with
          | .error e => .error e
          | .ok (stF, outs) => .ok (stF, (_r, f) :: outs)

/-- The Turn invariant of the data model: every history entry except
possibly the last has its answer attached. -/
def answeredExceptLast (l : List Conv) : Prop :=
  ∀ c ∈ l.dropLast, c.user ≠ none

/-- States of the Ollama engine observable while waiting for input:
right after some start_interview returned, or right after a further
process_answer returned. -/
inductive OllamaReachable : OllamaInterviewSystem → Prop where
  | start (st0 st' : OllamaInterviewSystem) (gw : Gateway) (t r : String)
      (h : st0.start_interview gw t = .ok (st', r)) : OllamaReachable st'
  | step (st st' : OllamaInterviewSystem) (gw : Gateway) (a r : String) (f : Bool)
      (hst : OllamaReachable st)
      (h : st.process_answer gw a = .ok (st', r, f)) : OllamaReachable st'

/-! ### Helper lemmas about the text-processing primitives -/

lemma mem_collapseAux {p : Char → Bool} {r : Char} {b : Bool} {l : List Char} {c : Char}
    (h : c ∈ collapseAux p r b l) : c = r ∨ p c = false := by
  induction l generalizing b with
  | nil => simp [collapseAux] at h
  | cons x xs ih =>
      simp only [collapseAux] at h
      by_cases hx : p x
      · simp only [hx, if_true] at h
        cases b with
        | true => exact ih h
        | false =>
            rcases List.mem_cons.mp h with h' | h'
            · exact Or.inl h'
            · exact ih h'
      · simp only [hx, if_false] at h
        rcases List.mem_cons.mp h with h' | h'
        · subst h'; simp [hx]
        · exact ih h'

lemma mem_stripRight {p : Char → Bool} {l : List Char} {c : Char}
    (h : c ∈ stripRight p l) : c ∈ l := by
  induction l with
  | nil => simp [stripRight] at h
  | cons x xs ih =>
      simp only [stripRight] at h
      by_cases hc : (stripRight p xs).isEmpty && p x
      · simp [hc] at h
      · simp only [hc, if_false] at h
        rcases List.mem_cons.mp h with h' | h'
        · exact h' ▸ List.mem_cons_self x xs
        · exact List.mem_cons_of_mem x (ih h')

lemma mem_pyStrip {l : List Char} {c : Char} (h : c ∈ pyStrip l) : c ∈ l :=
  (List.dropWhile_sublist pyIsSpace).mem (mem_stripRight h)

lemma dropWhile_self_idem {p : Char → Bool} (l : List Char) :
    (l.dropWhile p).dropWhile p = l.dropWhile p := by
  induction l with
  | nil => rfl
  | cons x xs ih =>
      by_cases hx : p x
      · simp [List.dropWhile_cons, hx, ih]
      · simp [List.dropWhile_cons, hx]

lemma stripRight_idem {p : Char → Bool} (l : List Char) :
    stripRight p (stripRight p l) = stripRight p l := by
  induction l with
  | nil => rfl
  | cons x xs ih =>
      simp only [stripRight]
      by_cases hc : (stripRight p xs).isEmpty && p x
      · simp [hc, stripRight]
      · simp only [hc, if_false, stripRight, ih]

lemma dropWhile_stripRight_of_fixed {p : Char → Bool} {l : List Char}
    (h : l.dropWhile p = l) : (stripRight p l).dropWhile p = stripRight p l := by
  cases l with
  | nil => rfl
  | cons x xs =>
      have hx : p x = false := by
        cases hx : p x
        · rfl
        · exfalso
          rw [List.dropWhile_cons, hx] at h
          simp only [if_true] at h
          have hxs : (List.dropWhile p xs).length ≤ xs.length :=
            (List.dropWhile_sublist p).length_le
          have hlen := congrArg List.length h
          simp at hlen
          omega
      simp only [stripRight]
      by_cases hc : (stripRight p xs).isEmpty && p x
      · simp [hc]
      · simp [List.dropWhile_cons, hx]

lemma pyStrip_idem (l : List Char) : pyStrip (pyStrip l) = pyStrip l := by
  unfold pyStrip
  rw [dropWhile_stripRight_of_fixed (dropWhile_self_idem l), stripRight_idem]

lemma pyStripS_of_pyStrip (l : List Char) : pyStripS ⟨pyStrip l⟩ = ⟨pyStrip l⟩ := by
  simp [pyStripS, pyStrip_idem]

lemma pyStripS_clean (raw : String) :
    pyStripS (clean_and_process_text raw) = clean_and_process_text raw := by
  unfold clean_and_process_text
  exact pyStripS_of_pyStrip _

lemma newline_not_mem_clean (raw : String) :
    '\n' ∉ (clean_and_process_text raw).data := by
  intro hmem
  unfold clean_and_process_text at hmem
  have h1 : '\n' ∈ (collapseAux pyIsSpace ' '
      false (collapseAux (fun c => c == '\n') '\n' false raw.data)).filter keepChar :=
    mem_pyStrip hmem
  have h2 := List.mem_of_mem_filter h1
  rcases mem_collapseAux h2 with h | h
  · exact absurd h (by decide)
  · exact absurd h (by simp [pyIsSpace])

lemma splitOnChar_of_not_mem {sep : Char} {l : List Char} (h : sep ∉ l) :
    splitOnChar sep l = [l] := by
  induction l with
  | nil => rfl
  | cons x xs ih =>
      simp only [List.mem_cons, not_or] at h
      simp only [splitOnChar]
      have hx : (x == sep) = false := by
        simp only [beq_eq_false_iff_ne]
        exact fun hc => h.1 hc.symm
      rw [ih h.2]
      simp [hx]

lemma str_empty_append (v : String) : "" ++ v = v := by
  apply String.ext
  simp [String.data_append]

lemma addTo_empty_spec (c : Category) (v : String) :
    ((Sections.addTo {} c v).values.countP (fun x => x != "")) ≤ 1 ∧
    v ∈ (Sections.addTo {} c v).values := by
  cases c <;>
    simp only [Sections.addTo, Sections.values, str_empty_append] <;>
    constructor <;>
    simp [List.countP_cons] <;>
    split_ifs <;>
    simp_all

lemma classifyLine_of_noKeyword {line : String} (cur : Category)
    (h : noKeyword line = true) : classifyLine line cur = cur := by
  simp only [noKeyword, Bool.and_eq_true, Bool.not_eq_true'] at h
  obtain ⟨⟨⟨⟨h1, h2⟩, h3⟩, h4⟩, h5⟩ := h
  simp [classifyLine, h1, h2, h3, h4, h5]

/-- Claim C3: `clean_and_process_text` never leaves a newline in its
output (every whitespace run collapses to one space), so in the
load_portfolio pipeline the classifier sees a single line and the
resulting profile has at most one non-empty category, which holds the
entire cleaned document text. -/
theorem claim_C3_clean_kills_newlines (raw : String) :
    '\n' ∉ (clean_and_process_text raw).data ∧
    ((load_portfolio_sections raw).values.countP (fun v => v != "")) ≤ 1 ∧
    (clean_and_process_text raw ≠ "" →
      (clean_and_process_text raw ++ " ") ∈ (load_portfolio_sections raw).values) := by
  have hnl := newline_not_mem_clean raw
  have hsplit : splitOnChar '\n' (clean_and_process_text raw).data =
      [(clean_and_process_text raw).data] := splitOnChar_of_not_mem hnl
  have hsecs : load_portfolio_sections raw =
      if (clean_and_process_text raw == "") = true then ({} : Sections)
      else Sections.addTo {} (classifyLine (clean_and_process_text raw) .others)
             (clean_and_process_text raw ++ " ") := by
    simp only [load_portfolio_sections, extract_key_sections, hsplit, List.map]
    simp only [extractGo, pyStripS_clean raw]
  refine ⟨hnl, ?_, ?_⟩
  · rw [hsecs]
    by_cases ht : clean_and_process_text raw = ""
    · simp [ht, Sections.values]
    · rw [if_neg (by simpa using ht)]
      exact (addTo_empty_spec _ _).1
  · intro ht
    rw [hsecs, if_neg (by simpa using ht)]
    exact (addTo_empty_spec _ _).2

/-- Witness for claim C3, instantiated at a concrete document. -/
theorem claim_C3_witness :
    '\n' ∉ (clean_and_process_text "학력: 컴퓨터공학과\n우수한 성적").data ∧
    ((load_portfolio_sections "학력: 컴퓨터공학과\n우수한 성적").values.countP (fun v => v != "")) ≤ 1 ∧
    (clean_and_process_text "학력: 컴퓨터공학과\n우수한 성적" ++ " ")
      ∈ (load_portfolio_sections "학력: 컴퓨터공학과\n우수한 성적").values := by
  obtain ⟨h1, h2, h3⟩ := claim_C3_clean_kills_newlines "학력: 컴퓨터공학과\n우수한 성적"
  exact ⟨h1, h2, h3 (by decide)⟩

/-- Claim C8: the classifier sends a line holding an experience keyword
and no education keyword to `experience`; a non-empty line matching no
keyword set is appended to the current cursor's category (sticky); and
the two-line education scenario accumulates both lines under
`education`. -/
theorem claim_C8_classifier_sticky :
    (∀ (line : String) (cur : Category),
       experience_keywords.any (fun k => strContains line k) = true →
       education_keywords.any (fun k => strContains line k) = false →
       classifyLine line cur = .experience) ∧
    (∀ (l : String) (ls : List String) (cur : Category) (secs : Sections),
       noKeyword (pyStripS l) = true → pyStripS l ≠ "" →
       extractGo (l :: ls) cur secs =
         extractGo ls cur (secs.addTo cur (pyStripS l ++ " "))) ∧
    extract_key_sections "학력: 컴퓨터공학과 졸업\n우수한 성적" =
      { education := "학력: 컴퓨터공학과 졸업 우수한 성적 " } := by
  refine ⟨?_, ?_, by decide⟩
  · intro line cur hexp hedu
    simp [classifyLine, hexp, hedu]
  · intro l ls cur secs hkw hne
    simp only [extractGo, classifyLine_of_noKeyword cur hkw]
    rw [if_neg (by simpa using hne)]

/-- Witness for claim C8, instantiated at concrete lines. -/
theorem claim_C8_witness :
    classifyLine "경력 3년" Category.others = Category.experience ∧
    extractGo ["취미 독서"] Category.experience {} =
      extractGo [] Category.experience
        (Sections.addTo {} Category.experience (pyStripS "취미 독서" ++ " ")) := by
  exact ⟨claim_C8_classifier_sticky.1 "경력 3년" _ (by decide) (by decide),
         claim_C8_classifier_sticky.2.1 "취미 독서" [] _ {} (by decide) (by decide)⟩

/-! ### Helper lemmas about the session engines -/

lemma recent_history_eq (l : List Conv) :
    (if l.isEmpty then "" else renderHistory (recentTurns l)) = renderHistory (recentTurns l) := by
  cases l <;> rfl

lemma recent_history_eq' (l : List Conv) :
    (if l = [] then "" else renderHistory (recentTurns l)) = renderHistory (recentTurns l) := by
  cases l <;> rfl

lemma ollama_start_ok {t tp : String} (st : OllamaInterviewSystem) (gw : Gateway)
    (htp : type_prompts t = some tp) :
    st.start_interview gw t =
      .ok ({ conversation_history := [], interview_type := some t,
             question_count := 1, max_questions := st.max_questions },
           call_ollama gw (first_turn_prompt tp (some t) 0 st.max_questions)) := by
  simp [OllamaInterviewSystem.start_interview, OllamaInterviewSystem.get_interview_prompt, htp]

lemma ollama_start_shape {st st' : OllamaInterviewSystem} {gw : Gateway} {t r : String}
    (h : st.start_interview gw t = .ok (st', r)) :
    st' = { conversation_history := [], interview_type := some t,
            question_count := 1, max_questions := st.max_questions } := by
  simp only [OllamaInterviewSystem.start_interview] at h
  split at h
  · cases h
  · simp only [Except.ok.injEq, Prod.mk.injEq] at h
    exact h.1.symm

lemma pf_start_shape {st st' : PortfolioInterviewSystem} {gw : Gateway} {t r : String}
    (h : st.start_interview gw t = .ok (st', r)) :
    st'.conversation_history = [] ∧ st'.question_count = 1 := by
  simp only [PortfolioInterviewSystem.start_interview] at h
  split at h
  · cases h
  · simp only [Except.ok.injEq, Prod.mk.injEq] at h
    rw [← h.1]
    exact ⟨rfl, rfl⟩

lemma process_answer_concluding {st : OllamaInterviewSystem} {gw : Gateway} {a : String}
    (h : st.max_questions ≤ st.question_count) :
    st.process_answer gw a = .ok (st, call_ollama gw (concluding_prompt a), true) := by
  simp [OllamaInterviewSystem.process_answer, h]

lemma process_answer_step {st : OllamaInterviewSystem} {gw : Gateway} {a t tp : String}
    (ht : st.interview_type = some t) (htp : type_prompts t = some tp)
    (hq : st.question_count < st.max_questions) :
    st.process_answer gw a =
      .ok ({ st with
             conversation_history := updateLast st.conversation_history a ++
               [⟨next_question_response gw tp st.question_count st.max_questions
                   (updateLast st.conversation_history a) a, none⟩],
             question_count := st.question_count + 1 },
           next_question_response gw tp st.question_count st.max_questions
             (updateLast st.conversation_history a) a,
           false) := by
  simp [OllamaInterviewSystem.process_answer, OllamaInterviewSystem.get_interview_prompt,
    ht, htp, Nat.not_le.mpr hq, next_question_response, recent_history_eq,
    recent_history_eq']

lemma process_answer_cases {st st' : OllamaInterviewSystem} {gw : Gateway} {a r : String} {f : Bool}
    (h : st.process_answer gw a = .ok (st', r, f)) :
    (st.max_questions ≤ st.question_count ∧ st' = st ∧ f = true) ∨
    (st.question_count < st.max_questions ∧
     st'.question_count = st.question_count + 1 ∧
     st'.max_questions = st.max_questions ∧
     st'.interview_type = st.interview_type ∧
     st'.conversation_history = updateLast st.conversation_history a ++ [⟨r, none⟩] ∧
     f = false) := by
  by_cases hq : st.max_questions ≤ st.question_count
  · rw [process_answer_concluding hq] at h
    simp only [Except.ok.injEq, Prod.mk.injEq] at h
    exact Or.inl ⟨hq, h.1.symm, h.2.2.symm⟩
  · right
    simp only [OllamaInterviewSystem.process_answer, if_neg hq] at h
    split at h
    · cases h
    · simp only [Except.ok.injEq, Prod.mk.injEq] at h
      obtain ⟨h1, h2, h3⟩ := h
      refine ⟨by omega, ?_, ?_, ?_, ?_, h3.symm⟩ <;> simp [← h1, h2]

lemma updateLast_answered {l : List Conv} {a : String} (h : answeredExceptLast l) :
    ∀ c ∈ updateLast l a, c.user ≠ none := by
  induction l with
  | nil => intro c hc; simp [updateLast] at hc
  | cons x xs ih =>
      cases xs with
      | nil =>
          intro c hc
          simp only [updateLast, List.mem_singleton] at hc
          subst hc
          simp
      | cons y ys =>
          intro c hc
          simp only [updateLast] at hc
          rcases List.mem_cons.mp hc with h' | h'
          · subst h'
            exact h c (by simp [List.dropLast])
          · refine ih ?_ c h'
            intro d hd
            exact h d (by simp [List.dropLast]; exact Or.inr hd)

lemma recentTurns_length_le (l : List Conv) : (recentTurns l).length ≤ 2 := by
  simp only [recentTurns, List.length_drop]
  omega

lemma recentTurns_answered {l : List Conv} {a : String} (h : answeredExceptLast l) :
    ∀ c ∈ recentTurns (updateLast l a), c.user ≠ none := fun c hc =>
  updateLast_answered h c (List.mem_of_mem_drop hc)

lemma type_prompts_eq_none_iff (t : String) :
    type_prompts t = none ↔ t ∉ (["공무원", "공기업", "IT", "사기업"] : List String) := by
  unfold type_prompts
  split_ifs with h1 h2 h3 h4 <;>
    simp_all

lemma runSubmits_mono (gw : Gateway) : ∀ (as : List String) (st : OllamaInterviewSystem),
    st.question_count ≤ (runSubmits st gw as).question_count := by
  intro as
  induction as with
  | nil => intro st; exact le_rfl
  | cons a as ih =>
      intro st
      simp only [runSubmits]
      cases h : st.process_answer gw a with
      | error e => exact le_rfl
      | ok res =>
          obtain ⟨st', r, f⟩ := res
          have h1 : st.question_count ≤ st'.question_count := by
            rcases process_answer_cases h with ⟨_, hst, _⟩ | ⟨_, hq, _⟩
            · subst hst; exact le_rfl
            · omega
          exact le_trans h1 (ih st')

lemma submitAll_append (gw : Gateway) (xs ys : List String) :
    ∀ st : OllamaInterviewSystem,
    submitAll st gw (xs ++ ys) =
      match submitAll st gw xs with
      | .error e => .error e
      | .ok (st', outs) =>
          match submitAll st' gw ys with
          | .error e => .error e
          | .ok (stF, outs2) => .ok (stF, outs ++ outs2) := by
  induction xs with
  | nil =>
      intro st
      simp only [List.nil_append, submitAll]
      cases h : submitAll st gw ys with
      | error e => rfl
      | ok res => obtain ⟨stF, outs2⟩ := res; rfl
  | cons x xs ih =>
      intro st
      simp only [List.cons_append, submitAll]
      cases st.process_answer gw x with
      | error e => rfl
      | ok res =>
          obtain ⟨st', r, f⟩ := res
          dsimp only
          rw [show xs.append ys = xs ++ ys from rfl, ih st']
          cases submitAll st' gw xs with
          | error e => rfl
          | ok res2 =>
              obtain ⟨stM, outs⟩ := res2
              dsimp only
              cases submitAll stM gw ys with
              | error e => rfl
              | ok res3 => obtain ⟨stF, outs2⟩ := res3; rfl

lemma submitAll_nonfinal {t tp : String} (htp : type_prompts t = some tp) (gw : Gateway) :
    ∀ (as : List String) (st : OllamaInterviewSystem),
      st.interview_type = some t →
      st.question_count + as.length ≤ st.max_questions →
      ∃ stF outs, submitAll st gw as = .ok (stF, outs) ∧
        outs.map Prod.snd = List.replicate as.length false ∧
        stF.question_count = st.question_count + as.length ∧
        stF.interview_type = some t ∧
        stF.max_questions = st.max_questions := by
  intro as
  induction as with
  | nil =>
      intro st hty _
      exact ⟨st, [], rfl, rfl, by simp, hty, rfl⟩
  | cons a as ih =>
      intro st hty hlen
      simp only [List.length_cons] at hlen
      have hq : st.question_count < st.max_questions := by omega
      have hstep := @process_answer_step st gw a t tp hty htp hq
      obtain ⟨stF, outs, hrun, hmap, hqc, hty2, hmax⟩ :=
        ih ({ st with
              conversation_history := updateLast st.conversation_history a ++
                [⟨next_question_response gw tp st.question_count st.max_questions
                    (updateLast st.conversation_history a) a, none⟩],
              question_count := st.question_count + 1 })
          (by simp [hty]) (by simp; omega)
      refine ⟨stF, (next_question_response gw tp st.question_count st.max_questions
          (updateLast st.conversation_history a) a, false) :: outs, ?_, ?_, ?_, hty2, by simpa using hmax⟩
      · simp only [submitAll, hstep, hrun]
      · simp [hmap, List.replicate_succ]
      · simp only [List.length_cons]
        simp only [] at hqc
        omega

/-! ### Claims about the session engines -/

/-- Claim C4: whenever start_interview returns, the history is empty
and the question counter is 1 — no Turn is recorded for the opening
question (in both engine variants); the first Turn only appears after
the subsequent non-concluding submit. -/
theorem claim_C4_start_resets :
    (∀ (st st' : OllamaInterviewSystem) (gw : Gateway) (t r : String),
        st.start_interview gw t = .ok (st', r) →
        st'.conversation_history = [] ∧ st'.question_count = 1) ∧
    (∀ (st st' : PortfolioInterviewSystem) (gw : Gateway) (t r : String),
        st.start_interview gw t = .ok (st', r) →
        st'.conversation_history = [] ∧ st'.question_count = 1) ∧
    (∀ (st st' st'' : OllamaInterviewSystem) (gw gw2 : Gateway) (t r a r2 : String) (f : Bool),
        st.start_interview gw t = .ok (st', r) →
        st'.question_count < st'.max_questions →
        st'.process_answer gw2 a = .ok (st'', r2, f) →
        st''.conversation_history.length = 1) := by
  refine ⟨?_, ?_, ?_⟩
  · intro st st' gw t r h
    rw [ollama_start_shape h]
    exact ⟨rfl, rfl⟩
  · intro st st' gw t r h
    exact pf_start_shape h
  · intro st st' st'' gw gw2 t r a r2 f h hq h2
    have hshape := ollama_start_shape h
    rcases process_answer_cases h2 with ⟨hge, _, _⟩ | ⟨_, _, _, _, hh, _⟩
    · omega
    · rw [hh, hshape]
      simp [updateLast]

/-- Witness for claim C4 at a concrete run. -/
theorem claim_C4_witness :
    ((⟨[], some "IT", 1, 8⟩ : OllamaInterviewSystem).conversation_history = [] ∧
     (⟨[], some "IT", 1, 8⟩ : OllamaInterviewSystem).question_count = 1) ∧
    ((⟨[], some "IT", 1, 8, "", none, false⟩ : PortfolioInterviewSystem).conversation_history = [] ∧
     (⟨[], some "IT", 1, 8, "", none, false⟩ : PortfolioInterviewSystem).question_count = 1) ∧
    (⟨[⟨"q2", none⟩], some "IT", 2, 8⟩ : OllamaInterviewSystem).conversation_history.length = 1 := by
  refine ⟨?_, ?_, ?_⟩
  · exact claim_C4_start_resets.1 .init _ (fun _ => .ok 200 "q1") "IT" "q1" (by rfl)
  · exact claim_C4_start_resets.2.1 .init _ (fun _ => .ok 200 "q1") "IT" "q1" (by rfl)
  · exact claim_C4_start_resets.2.2 .init ⟨[], some "IT", 1, 8⟩ _ (fun _ => .ok 200 "q1")
      (fun _ => .ok 200 "q2") "IT" "q1" "대답" "q2" false (by rfl) (by decide) (by rfl)

/-- Claim C6: per submit, the turn counter grows by exactly 1 in a
non-concluding state and is untouched in a concluding state, and over
any sequence of submits it is monotonically non-decreasing. -/
theorem claim_C6_turn_monotone (st : OllamaInterviewSystem) (gw : Gateway) :
    (∀ (a r : String) (st' : OllamaInterviewSystem) (f : Bool),
        st.process_answer gw a = .ok (st', r, f) →
        st.question_count ≤ st'.question_count ∧
        (st.question_count < st.max_questions →
           st'.question_count = st.question_count + 1 ∧ f = false) ∧
        (st.max_questions ≤ st.question_count → st' = st ∧ f = true)) ∧
    (∀ as : List String, st.question_count ≤ (runSubmits st gw as).question_count) := by
  constructor
  · intro a r st' f h
    rcases process_answer_cases h with ⟨hq, hst, hf⟩ | ⟨hq, h1, _, _, _, hf⟩
    · subst hst
      exact ⟨le_rfl, fun hlt => absurd hq (by omega), fun _ => ⟨rfl, hf⟩⟩
    · exact ⟨by omega, fun _ => ⟨h1, hf⟩, fun hge => absurd hq (by omega)⟩
  · exact fun as => runSubmits_mono gw as st

/-- Witness for claim C6 at a concrete submit. -/
theorem claim_C6_witness :
    ((1 : Nat) ≤ (⟨[⟨"next", none⟩], some "IT", 2, 8⟩ : OllamaInterviewSystem).question_count ∧
     ((1 : Nat) < 8 →
        (⟨[⟨"next", none⟩], some "IT", 2, 8⟩ : OllamaInterviewSystem).question_count = 1 + 1 ∧
        false = false) ∧
     ((8 : Nat) ≤ 1 →
        (⟨[⟨"next", none⟩], some "IT", 2, 8⟩ : OllamaInterviewSystem) = ⟨[], some "IT", 1, 8⟩ ∧
        false = true)) ∧
    (1 : Nat) ≤ (runSubmits ⟨[], some "IT", 1, 8⟩ (fun _ => .ok 200 "next") ["a", "b"]).question_count := by
  constructor
  · exact (claim_C6_turn_monotone ⟨[], some "IT", 1, 8⟩ (fun _ => .ok 200 "next")).1
      "a" "next" ⟨[⟨"next", none⟩], some "IT", 2, 8⟩ false (by rfl)
  · exact (claim_C6_turn_monotone ⟨[], some "IT", 1, 8⟩ (fun _ => .ok 200 "next")).2 ["a", "b"]

/-- Claim C7: in every state where the engine waits for input (right
after a start or submit returned), all history entries except possibly
the most recent one carry an answer. -/
theorem claim_C7_at_most_last_unanswered (st : OllamaInterviewSystem)
    (h : OllamaReachable st) : answeredExceptLast st.conversation_history := by
  induction h with
  | start st0 st' gw t r h =>
      rw [ollama_start_shape h]
      intro c hc
      simp at hc
  | step s st' gw a r f hst h ih =>
      rcases process_answer_cases h with ⟨_, heq, _⟩ | ⟨_, _, _, _, hh, _⟩
      · rwa [heq]
      · rw [hh]
        intro c hc
        rw [List.dropLast_concat] at hc
        exact updateLast_answered ih c hc

/-- Witness for claim C7 at a concrete reachable state. -/
theorem claim_C7_witness :
    answeredExceptLast (⟨[], some "IT", 1, 8⟩ : OllamaInterviewSystem).conversation_history :=
  claim_C7_at_most_last_unanswered _
    (OllamaReachable.start .init ⟨[], some "IT", 1, 8⟩ (fun _ => .ok 200 "q1") "IT" "q1" (by rfl))

/-- Claim C10: prompt composition fails (dictionary-lookup error) for
every interview type outside the closed four-element set, and start
propagates that failure; for every type inside the set both succeed. -/
theorem claim_C10_closed_type_set (t : String) :
    (t ∉ (["공무원", "공기업", "IT", "사기업"] : List String) →
       (∀ (st : OllamaInterviewSystem) (b : Bool),
          st.get_interview_prompt (some t) b = .error ()) ∧
       (∀ (st : OllamaInterviewSystem) (gw : Gateway),
          st.start_interview gw t = .error ())) ∧
    (t ∈ (["공무원", "공기업", "IT", "사기업"] : List String) →
       (∀ (st : OllamaInterviewSystem) (b : Bool),
          ∃ p, st.get_interview_prompt (some t) b = .ok p) ∧
       (∀ (st : OllamaInterviewSystem) (gw : Gateway),
          ∃ st' r, st.start_interview gw t = .ok (st', r))) := by
  constructor
  · intro hmem
    have hnone : type_prompts t = none := (type_prompts_eq_none_iff t).mpr hmem
    have hcomp : ∀ (st : OllamaInterviewSystem) (b : Bool),
        st.get_interview_prompt (some t) b = .error () := by
      intro st b
      simp [OllamaInterviewSystem.get_interview_prompt, hnone]
    refine ⟨hcomp, ?_⟩
    intro st gw
    simp [OllamaInterviewSystem.start_interview, hcomp]
  · intro hmem
    cases htp : type_prompts t with
    | none => exact absurd ((type_prompts_eq_none_iff t).mp htp) (not_not_intro hmem)
    | some tp =>
        constructor
        · intro st b
          have hb : (some t).bind type_prompts = some tp := by simp [htp]
          unfold OllamaInterviewSystem.get_interview_prompt
          rw [hb]
          cases b
          · exact ⟨_, rfl⟩
          · exact ⟨_, rfl⟩
        · intro st gw
          exact ⟨_, _, ollama_start_ok st gw htp⟩

/-- Witness for claim C10 at a type outside the set and one inside. -/
theorem claim_C10_witness :
    ((∀ (st : OllamaInterviewSystem) (b : Bool),
        st.get_interview_prompt (some "회계사") b = .error ()) ∧
     (∀ (st : OllamaInterviewSystem) (gw : Gateway),
        st.start_interview gw "회계사" = .error ())) ∧
    ((∀ (st : OllamaInterviewSystem) (b : Bool),
        ∃ p, st.get_interview_prompt (some "IT") b = .ok p) ∧
     (∀ (st : OllamaInterviewSystem) (gw : Gateway),
        ∃ st' r, st.start_interview gw "IT" = .ok (st', r))) :=
  ⟨(claim_C10_closed_type_set "회계사").1 (by decide),
   (claim_C10_closed_type_set "IT").2 (by decide)⟩

/-- Counterexample to claim C2: on a non-concluding submit whose
gateway call times out, the caller does get the retry message back,
but the session state is NOT unchanged — the turn counter advances
from 1 to 2 and a new Turn holding the retry message is appended. -/
theorem claim_C2_counterexample :
    (OllamaInterviewSystem.process_answer ⟨[], some "IT", 1, 8⟩ (fun _ => .timeout) "답변") =
      .ok (⟨[⟨timeout_message, none⟩], some "IT", 2, 8⟩, timeout_message, false) ∧
    (⟨[⟨timeout_message, none⟩], some "IT", 2, 8⟩ : OllamaInterviewSystem) ≠
      ⟨[], some "IT", 1, 8⟩ := by
  exact ⟨rfl, by decide⟩

/-- Claim C2 as amended: when the gateway times out, the returned
string is always the retry message; the session state is unchanged
only on a concluding submit — a non-concluding submit records the
retry message as if it were the next question (answer attached to the
previous Turn, new unanswered Turn appended, counter incremented). -/
theorem claim_C2_timeout_message (st : OllamaInterviewSystem) (gw : Gateway)
    (a t tp : String) (hgw : ∀ p, gw p = .timeout) :
    (st.max_questions ≤ st.question_count →
       st.process_answer gw a = .ok (st, timeout_message, true)) ∧
    (st.question_count < st.max_questions →
     st.interview_type = some t → type_prompts t = some tp →
       st.process_answer gw a =
         .ok ({ st with
                conversation_history := updateLast st.conversation_history a ++
                  [⟨timeout_message, none⟩],
                question_count := st.question_count + 1 },
              timeout_message, false)) := by
  have hcall : ∀ p, call_ollama gw p = timeout_message := by
    intro p
    simp [call_ollama, hgw]
  constructor
  · intro hq
    rw [process_answer_concluding hq, hcall]
  · intro hq ht htp
    rw [process_answer_step ht htp hq]
    simp [next_question_response, hcall]

/-- Witness for the amended claim C2 at a concrete timed-out submit. -/
theorem claim_C2_witness :
    (OllamaInterviewSystem.process_answer ⟨[], some "IT", 8, 8⟩ (fun _ => .timeout) "끝" =
       .ok (⟨[], some "IT", 8, 8⟩, timeout_message, true)) ∧
    (OllamaInterviewSystem.process_answer ⟨[], some "IT", 3, 8⟩ (fun _ => .timeout) "중간" =
       .ok (⟨[⟨timeout_message, none⟩], some "IT", 4, 8⟩, timeout_message, false)) := by
  constructor
  · exact (claim_C2_timeout_message ⟨[], some "IT", 8, 8⟩ (fun _ => .timeout) "끝" "IT"
      "" (fun _ => rfl)).1 (by decide)
  · have h := (claim_C2_timeout_message ⟨[], some "IT", 3, 8⟩ (fun _ => .timeout) "중간" "IT"
      (pyOptStr (type_prompts "IT")) (fun _ => rfl)).2 (by decide) (by rfl) (by rfl)
    simpa using h

/-- Claim C5: on every non-concluding submit from a state satisfying
the Turn invariant, the transcript block rendered into the follow-up
prompt covers at most the 2 most recent Turns of the updated history,
and every rendered Turn has its answer attached (the incoming answer
is attached before the prompt is composed). -/
theorem claim_C5_transcript_window (st : OllamaInterviewSystem) (gw : Gateway)
    (a t tp : String)
    (ht : st.interview_type = some t) (htp : type_prompts t = some tp)
    (hq : st.question_count < st.max_questions)
    (hinv : answeredExceptLast st.conversation_history) :
    (recentTurns (updateLast st.conversation_history a)).length ≤ 2 ∧
    (∀ c ∈ recentTurns (updateLast st.conversation_history a), c.user ≠ none) ∧
    st.process_answer gw a =
      .ok ({ st with
             conversation_history := updateLast st.conversation_history a ++
               [⟨next_question_response gw tp st.question_count st.max_questions
                   (updateLast st.conversation_history a) a, none⟩],
             question_count := st.question_count + 1 },
           next_question_response gw tp st.question_count st.max_questions
             (updateLast st.conversation_history a) a,
           false) :=
  ⟨recentTurns_length_le _, recentTurns_answered hinv, process_answer_step ht htp hq⟩

/-- Witness for claim C5 at a concrete submit whose history holds one
unanswered Turn. -/
theorem claim_C5_witness :
    (recentTurns (updateLast [⟨"질문1", none⟩] "답1")).length ≤ 2 ∧
    (∀ c ∈ recentTurns (updateLast [⟨"질문1", none⟩] "답1"), c.user ≠ none) ∧
    OllamaInterviewSystem.process_answer ⟨[⟨"질문1", none⟩], some "IT", 2, 8⟩
        (fun _ => .ok 200 "질문2") "답1" =
      .ok (⟨updateLast [⟨"질문1", none⟩] "답1" ++
            [⟨next_question_response (fun _ => .ok 200 "질문2") (pyOptStr (type_prompts "IT"))
                2 8 (updateLast [⟨"질문1", none⟩] "답1") "답1", none⟩],
            some "IT", 3, 8⟩,
           next_question_response (fun _ => .ok 200 "질문2") (pyOptStr (type_prompts "IT"))
             2 8 (updateLast [⟨"질문1", none⟩] "답1") "답1",
           false) := by
  have h := claim_C5_transcript_window ⟨[⟨"질문1", none⟩], some "IT", 2, 8⟩
    (fun _ => .ok 200 "질문2") "답1" "IT" (pyOptStr (type_prompts "IT"))
    (by rfl) (by rfl) (by decide) (by intro c hc; simp [List.dropLast] at hc)
  exact h

/-- Claim C1: starting a fresh session with a valid type, after 8
completed submit calls the 9th submit("I think I did well") returns
is_final = true, its gateway prompt is the closing-evaluation prompt
holding the literal answer text, and every submit taken while the turn
counter is below max_questions returns is_final = false. The per-call
flags come out as 7 times false followed by true twice: the turn
counter starts at 1, so the 8th call is already the first concluding
one and the 9th repeats the concluding round. -/
theorem claim_C1_scenario_b (gw : Gateway) (t tp : String) (htp : type_prompts t = some tp)
    (as : List String) (h7 : as.length = 7) (a8 : String) :
    ∃ (st1 : OllamaInterviewSystem) (r1 : String) (st9 : OllamaInterviewSystem)
      (outs : List (String × Bool)),
      OllamaInterviewSystem.init.start_interview gw t = .ok (st1, r1) ∧
      submitAll st1 gw (as ++ [a8, "I think I did well"]) = .ok (st9, outs) ∧
      outs.map Prod.snd = List.replicate 7 false ++ [true, true] ∧
      outs.getLast? = some (call_ollama gw (concluding_prompt "I think I did well"), true) ∧
      (∃ pre post, concluding_prompt "I think I did well" =
         pre ++ "I think I did well" ++ post) ∧
      (∀ (s s' : OllamaInterviewSystem) (b r : String) (f : Bool),
         s.question_count < s.max_questions →
         s.process_answer gw b = .ok (s', r, f) → f = false) := by
  have hstart := ollama_start_ok OllamaInterviewSystem.init gw htp
  obtain ⟨st8, outs1, hrun, hmap, hqc, hty8, hmax8⟩ :=
    submitAll_nonfinal htp gw as
      { conversation_history := [], interview_type := some t, question_count := 1,
        max_questions := OllamaInterviewSystem.init.max_questions }
      rfl (by simp [OllamaInterviewSystem.init, h7])
  simp only [] at hqc hmax8
  have h8 : st8.question_count = 8 := by rw [hqc, h7]
  have hm8 : st8.max_questions = 8 := by simpa [OllamaInterviewSystem.init] using hmax8
  have hconc : st8.max_questions ≤ st8.question_count := by omega
  have htail : submitAll st8 gw [a8, "I think I did well"] =
      .ok (st8, [(call_ollama gw (concluding_prompt a8), true),
                 (call_ollama gw (concluding_prompt "I think I did well"), true)]) := by
    simp only [submitAll, process_answer_concluding hconc]
  have hall : submitAll
      { conversation_history := [], interview_type := some t, question_count := 1,
        max_questions := OllamaInterviewSystem.init.max_questions } gw
      (as ++ [a8, "I think I did well"]) =
      .ok (st8, outs1 ++ [(call_ollama gw (concluding_prompt a8), true),
                          (call_ollama gw (concluding_prompt "I think I did well"), true)]) := by
    rw [submitAll_append gw as [a8, "I think I did well"] _, hrun]
    dsimp only
    rw [htail]
  refine ⟨_, _, st8, _, hstart, hall, ?_, ?_, ?_, ?_⟩
  · simp [hmap, h7]
  · have hsplit : outs1 ++ [(call_ollama gw (concluding_prompt a8), true),
        (call_ollama gw (concluding_prompt "I think I did well"), true)] =
        (outs1 ++ [(call_ollama gw (concluding_prompt a8), true)]) ++
        [(call_ollama gw (concluding_prompt "I think I did well"), true)] := by
      simp
    rw [hsplit, List.getLast?_concat]
  · exact ⟨"면접이 모두 완료되었습니다. \n지원자의 마지막 답변: ", _, rfl⟩
  · intro s s' b r f hlt hp
    rcases process_answer_cases hp with ⟨hge, _, _⟩ | ⟨_, _, _, _, _, hf⟩
    · omega
    · exact hf

/-- Witness for claim C1 at a concrete gateway, type and answers. -/
theorem claim_C1_witness :
    ∃ (st1 : OllamaInterviewSystem) (r1 : String) (st9 : OllamaInterviewSystem)
      (outs : List (String × Bool)),
      OllamaInterviewSystem.init.start_interview (fun _ => .ok 200 "면접 질문") "IT" =
        .ok (st1, r1) ∧
      submitAll st1 (fun _ => .ok 200 "면접 질문")
          (["답", "답", "답", "답", "답", "답", "답"] ++ ["마지막 답", "I think I did well"]) =
        .ok (st9, outs) ∧
      outs.map Prod.snd = List.replicate 7 false ++ [true, true] ∧
      outs.getLast? = some (call_ollama (fun _ => .ok 200 "면접 질문")
        (concluding_prompt "I think I did well"), true) ∧
      (∃ pre post, concluding_prompt "I think I did well" =
         pre ++ "I think I did well" ++ post) ∧
      (∀ (s s' : OllamaInterviewSystem) (b r : String) (f : Bool),
         s.question_count < s.max_questions →
         s.process_answer (fun _ => .ok 200 "면접 질문") b = .ok (s', r, f) → f = false) :=
  claim_C1_scenario_b (fun _ => .ok 200 "면접 질문") "IT" ((type_prompts "IT").getD "")
    (by rfl) ["답", "답", "답", "답", "답", "답", "답"] (by rfl) "마지막 답"

lemma pySlice_length (s : String) (n : Nat) : (pySlice s n).length = min n s.length := by
  show (s.data.take n).length = min n s.data.length
  exact List.length_take n s.data

lemma pySlice_leading (s : String) (n : Nat) :
    s.data = (pySlice s n).data ++ s.data.drop n :=
  (List.take_append_drop n s.data).symm

/-- Claim C9: with a portfolio present, the composed prompt embeds the
personalization block, and that block renders every category through
its fixed slicing budget — at most 200 characters for education,
experience, skills and projects, at most 100 for certifications; a
summary at least as long as its budget appears cut to exactly the
budget, as a leading segment of the original. -/
theorem claim_C9_budget_truncation (st : PortfolioInterviewSystem) (it : Option String)
    (b : Bool) (p : String)
    (hp : st.has_portfolio = true)
    (h : st.get_portfolio_based_prompt it b = .ok p) :
    (∃ tp tail, p = pf_base_prompt tp (portfolio_summary_block st.portfolio_sections)
        st.question_count st.max_questions ++ tail) ∧
    portfolio_summary_block st.portfolio_sections =
      "\n**지원자 포트폴리오 요약:**\n교육배경: " ++
      pySlice (sectionsGet st.portfolio_sections .education) 200 ++
      "\n경력사항: " ++ pySlice (sectionsGet st.portfolio_sections .experience) 200 ++
      "\n기술/스킬: " ++ pySlice (sectionsGet st.portfolio_sections .skills) 200 ++
      "\n프로젝트: " ++ pySlice (sectionsGet st.portfolio_sections .projects) 200 ++
      "\n자격증: " ++ pySlice (sectionsGet st.portfolio_sections .certifications) 100 ++ "\n" ∧
    (∀ cn ∈ ([(Category.education, 200), (Category.experience, 200), (Category.skills, 200),
              (Category.projects, 200), (Category.certifications, 100)] :
          List (Category × Nat)),
       (pySlice (sectionsGet st.portfolio_sections cn.1) cn.2).length ≤ cn.2 ∧
       (cn.2 ≤ (sectionsGet st.portfolio_sections cn.1).length →
          (pySlice (sectionsGet st.portfolio_sections cn.1) cn.2).length = cn.2) ∧
       (sectionsGet st.portfolio_sections cn.1).data =
         (pySlice (sectionsGet st.portfolio_sections cn.1) cn.2).data ++
         (sectionsGet st.portfolio_sections cn.1).data.drop cn.2) := by
  refine ⟨?_, rfl, ?_⟩
  · simp only [PortfolioInterviewSystem.get_portfolio_based_prompt] at h
    cases hb : it.bind pf_type_prompts with
    | none => rw [hb] at h; cases h
    | some tp =>
        rw [hb] at h
        simp only [hp, if_true] at h
        cases b with
        | true =>
            simp only [if_true, Except.ok.injEq] at h
            refine ⟨tp, "\n\n지금 " ++ pyOptStr it ++ " 면접을 시작합니다.\n지원자의 포트폴리오를 검토했다는 인사말과 함께 포트폴리오 내용에 기반한 첫 번째 질문을 해주세요.\n반드시 완벽한 한국어로만 답변하세요.", ?_⟩
            rw [← h]
            simp [String.append_assoc]
        | false =>
            simp only [Bool.false_eq_true, if_false, Except.ok.injEq] at h
            refine ⟨tp, "\n\n최근 대화 내용:\n" ++
              (if st.conversation_history.isEmpty then ""
               else renderHistory (recentTurns st.conversation_history)) ++
              "\n\n지원자의 답변을 바탕으로 포트폴리오 내용과 연관된 심화 질문을 해주세요.\n반드시 완벽한 한국어로만 답변하세요.", ?_⟩
            rw [← h]
            simp [String.append_assoc]
  · intro cn hcn
    have hfacts : ∀ (v : String) (n : Nat),
        (pySlice v n).length ≤ n ∧
        (n ≤ v.length → (pySlice v n).length = n) ∧
        v.data = (pySlice v n).data ++ v.data.drop n := by
      intro v n
      refine ⟨?_, ?_, pySlice_leading v n⟩
      · rw [pySlice_length]; exact Nat.min_le_left n v.length
      · intro hn; rw [pySlice_length]; exact Nat.min_eq_left hn
    simp only [List.mem_cons, List.not_mem_nil, or_false] at hcn
    rcases hcn with rfl | rfl | rfl | rfl | rfl <;> exact hfacts _ _

/-- Witness for claim C9 at a concrete portfolio-backed session. -/
theorem claim_C9_witness :
    ∃ p,
      PortfolioInterviewSystem.get_portfolio_based_prompt
          ⟨[], some "IT", 0, 8, "", some ⟨"학력요약", "경력요약", "기술요약", "프로젝트요약", "자격증요약", ""⟩, true⟩
          (some "IT") true = .ok p ∧
      ((∃ tp tail, p = pf_base_prompt tp
          (portfolio_summary_block (some ⟨"학력요약", "경력요약", "기술요약", "프로젝트요약", "자격증요약", ""⟩))
          0 8 ++ tail) ∧
       portfolio_summary_block
           (some ⟨"학력요약", "경력요약", "기술요약", "프로젝트요약", "자격증요약", ""⟩) =
         "\n**지원자 포트폴리오 요약:**\n교육배경: " ++
         pySlice (sectionsGet (some ⟨"학력요약", "경력요약", "기술요약", "프로젝트요약", "자격증요약", ""⟩) .education) 200 ++
         "\n경력사항: " ++ pySlice (sectionsGet (some ⟨"학력요약", "경력요약", "기술요약", "프로젝트요약", "자격증요약", ""⟩) .experience) 200 ++
         "\n기술/스킬: " ++ pySlice (sectionsGet (some ⟨"학력요약", "경력요약", "기술요약", "프로젝트요약", "자격증요약", ""⟩) .skills) 200 ++
         "\n프로젝트: " ++ pySlice (sectionsGet (some ⟨"학력요약", "경력요약", "기술요약", "프로젝트요약", "자격증요약", ""⟩) .projects) 200 ++
         "\n자격증: " ++ pySlice (sectionsGet (some ⟨"학력요약", "경력요약", "기술요약", "프로젝트요약", "자격증요약", ""⟩) .certifications) 100 ++ "\n" ∧
       (∀ cn ∈ ([(Category.education, 200), (Category.experience, 200), (Category.skills, 200),
                 (Category.projects, 200), (Category.certifications, 100)] :
             List (Category × Nat)),
          (pySlice (sectionsGet (some ⟨"학력요약", "경력요약", "기술요약", "프로젝트요약", "자격증요약", ""⟩) cn.1) cn.2).length ≤ cn.2 ∧
          (cn.2 ≤ (sectionsGet (some ⟨"학력요약", "경력요약", "기술요약", "프로젝트요약", "자격증요약", ""⟩) cn.1).length →
             (pySlice (sectionsGet (some ⟨"학력요약", "경력요약", "기술요약", "프로젝트요약", "자격증요약", ""⟩) cn.1) cn.2).length = cn.2) ∧
          (sectionsGet (some ⟨"학력요약", "경력요약", "기술요약", "프로젝트요약", "자격증요약", ""⟩) cn.1).data =
            (pySlice (sectionsGet (some ⟨"학력요약", "경력요약", "기술요약", "프로젝트요약", "자격증요약", ""⟩) cn.1) cn.2).data ++
            (sectionsGet (some ⟨"학력요약", "경력요약", "기술요약", "프로젝트요약", "자격증요약", ""⟩) cn.1).data.drop cn.2)) :=
  ⟨_, rfl,
   claim_C9_budget_truncation
     ⟨[], some "IT", 0, 8, "", some ⟨"학력요약", "경력요약", "기술요약", "프로젝트요약", "자격증요약", ""⟩, true⟩
     (some "IT") true _ rfl rfl⟩

end MockInterview
